import Mathlib

/-!
Shallow embedding of `src/Dummy.js`: a script that generates synthetic
power-meter telemetry for the last two months and either inserts it into a
document database or deletes all stored records, driven by two integer
prompts (energy mode, action).

Modelling choices:
* JS numbers are embedded as `ℚ`; `x.toFixed(f)` followed by `parseFloat`
  is `roundTo f x` (round half up to `f` decimals, as specified for
  `Number.prototype.toFixed`).
* `Math.random()` draws are explicit parameters in `[0, 1)`: one
  `RandomDraws` bundle per generated record plus one draw for the initial
  energy.
* Dates are integer day numbers; the loop
  `for (d = twoMonthsAgo; d <= today; d.setDate(d.getDate()+1))` becomes a
  recursion over the day count of the inclusive range.  The wall-clock
  time-of-day captured at the start of the run is a `ClockTime`.
* The storage section (connect / listCollections / insertMany / find /
  deleteMany inside try–catch–finally with a final disconnect) becomes
  `tryPart` / `runStorage`, producing the ordered trace of attempted
  storage operations together with the caught-error flag and counters.
-/

/-- Round half up to `f` decimal places: the model of
`parseFloat(x.toFixed(f))` for a nonnegative JS number. -/
def roundTo (f : ℕ) (x : ℚ) : ℚ := (⌊x * 10 ^ f + 1 / 2⌋ : ℚ) / 10 ^ f

/-- A rational is representable with `f` decimal places. -/
def exactAt (f : ℕ) (q : ℚ) : Prop := ∃ k : ℤ, q = (k : ℚ) / 10 ^ f

lemma exactAt_roundTo (f : ℕ) (x : ℚ) : exactAt f (roundTo f x) :=
  ⟨⌊x * 10 ^ f + 1 / 2⌋, rfl⟩

lemma exactAt_add {f : ℕ} {a b : ℚ} (ha : exactAt f a) (hb : exactAt f b) :
    exactAt f (a + b) := by
  obtain ⟨k, rfl⟩ := ha
  obtain ⟨m, rfl⟩ := hb
  exact ⟨k + m, by push_cast; ring⟩

lemma roundTo_eq_self {f : ℕ} {q : ℚ} (h : exactAt f q) : roundTo f q = q := by
  obtain ⟨k, rfl⟩ := h
  have h10 : (0 : ℚ) < 10 ^ f := by positivity
  unfold roundTo
  rw [div_mul_cancel₀ _ (ne_of_gt h10)]
  congr 1
  have : ⌊(k : ℚ) + 1 / 2⌋ = k := by
    rw [Int.floor_eq_iff]
    constructor
    · linarith
    · norm_num
  exact_mod_cast this

lemma le_roundTo {f : ℕ} {a x : ℚ} (ha : exactAt f a) (h : a ≤ x) :
    a ≤ roundTo f x := by
  obtain ⟨k, rfl⟩ := ha
  have h10 : (0 : ℚ) < 10 ^ f := by positivity
  unfold roundTo
  have hk : (k : ℚ) ≤ x * 10 ^ f + 1 / 2 := by
    have := (div_le_iff₀ h10).mp h
    linarith
  have hfloor : (k : ℚ) ≤ (⌊x * 10 ^ f + 1 / 2⌋ : ℚ) := by
    exact_mod_cast Int.le_floor.mpr hk
  gcongr

lemma roundTo_le {f : ℕ} {x b : ℚ} (hb : exactAt f b) (h : x < b) :
    roundTo f x ≤ b := by
  obtain ⟨m, rfl⟩ := hb
  have h10 : (0 : ℚ) < 10 ^ f := by positivity
  unfold roundTo
  have hx : x * 10 ^ f < m := by
    have := (lt_div_iff₀ h10).mp h
    linarith
  have hlt : ⌊x * 10 ^ f + 1 / 2⌋ < m + 1 := by
    rw [Int.floor_lt]
    push_cast
    linarith
  have hfloor : (⌊x * 10 ^ f + 1 / 2⌋ : ℚ) ≤ (m : ℚ) := by
    exact_mod_cast Int.lt_add_one_iff.mp hlt
  gcongr

/-- One record's worth of `Math.random()` draws, each in `[0, 1)`. -/
structure RandomDraws where
  rVoltage : ℚ
  rPf : ℚ
  rCurrent : ℚ
  rFrequency : ℚ
deriving DecidableEq

/-- The numeric fields produced by `generateRandomData` in `src/Dummy.js`
(lines 27–47). -/
structure PzemFields where
  voltage : ℚ
  current : ℚ
  power : ℚ
  energy : ℚ
  frequency : ℚ
  pf : ℚ
deriving DecidableEq

/-- Embedding of `generateRandomData(energy)` (src/Dummy.js lines 27–47):
voltage, power factor, current and frequency are sampled and rounded with
`toFixed`; power is computed from the already-rounded values (JS coerces
the `toFixed` strings back to numbers in the product); energy is the input
rounded to 3 decimals. -/
def generateRandomData (r : RandomDraws) (energy : ℚ) : PzemFields :=
  let voltage := roundTo 1 (r.rVoltage * (245 - 225) + 225)
  let pf := roundTo 2 (r.rPf * (1 / 10) + 8 / 10)
  let current := roundTo 3 (r.rCurrent * (1 - 1 / 100) + 1 / 100)
  let power := roundTo 2 (voltage * current * pf)
  let frequency := roundTo 1 (r.rFrequency * (1 / 10) + 498 / 10)
  let formattedEnergy := roundTo 3 energy
  { voltage := voltage, current := current, power := power,
    energy := formattedEnergy, frequency := frequency, pf := pf }

/-- Wall-clock time-of-day captured when the run starts. -/
structure ClockTime where
  hours : ℕ
  minutes : ℕ
  seconds : ℕ
deriving DecidableEq

/-- Embedding of `String.prototype.padStart(2, '0')` on a decimal-rendered
natural number. -/
def pad2 (n : ℕ) : String := if n < 10 then "0" ++ toString n else toString n

/-- Embedding of `formatTime(date)` (src/Dummy.js lines 50–59): 12-hour
rendering with hour 0 shown as 12, zero-padded minutes and seconds, and an
AM/PM suffix. -/
def formatTime (t : ClockTime) : String :=
  let ampm := if 12 ≤ t.hours then "PM" else "AM"
  let h1 := t.hours % 12
  let h2 := if h1 = 0 then 12 else h1
  toString h2 ++ ":" ++ pad2 t.minutes ++ ":" ++ pad2 t.seconds ++ " " ++ ampm

/-- One fully stamped record pushed onto `dataToInsert` (src/Dummy.js
line 84).  The `date` is a day number (ISO date strings are injective on
days); `time` is the formatted time string. -/
structure PzemRecord where
  voltage : ℚ
  current : ℚ
  power : ℚ
  energy : ℚ
  frequency : ℚ
  pf : ℚ
  date : ℤ
  time : String
deriving DecidableEq

/-- Spread of `generateRandomData`'s fields plus the date/time stamping of
src/Dummy.js line 84. -/
def stampRecord (f : PzemFields) (d : ℤ) (time : String) : PzemRecord :=
  { voltage := f.voltage, current := f.current, power := f.power,
    energy := f.energy, frequency := f.frequency, pf := f.pf,
    date := d, time := time }

/-- Embedding of the initial-energy branch (src/Dummy.js lines 71–75):
mode 1 samples `[0.5, 1)` and any other mode samples `[150, 250)`, each
rounded to 3 decimals. -/
def initialEnergy (energyType : ℤ) (r0 : ℚ) : ℚ :=
  if energyType = 1 then roundTo 3 (r0 * (1 - 1 / 2) + 1 / 2)
  else roundTo 3 (r0 * (250 - 150) + 150)

/-- The per-day energy increment chosen on src/Dummy.js line 88. -/
def energyStep (energyType : ℤ) : ℚ := if energyType = 1 then 3 / 1000 else 1 / 2

/-- The date loop of src/Dummy.js lines 79–90, recursing on the number of
remaining days: each iteration stamps a record at day `d` with the constant
time string, then advances the day by one and the energy by the step,
re-rounded to 3 decimals. -/
def genLoop (time : String) (step : ℚ) :
    ℕ → (ℕ → RandomDraws) → ℤ → ℚ → List PzemRecord
  | 0, _, _, _ => []
  | n + 1, rnd, d, energy =>
    stampRecord (generateRandomData (rnd 0) energy) d time ::
      genLoop time step n (fun k => rnd (k + 1)) (d + 1) (roundTo 3 (energy + step))

/-- Number of iterations of the loop `for (d = startDay; d <= endDay; d++)`. -/
def numDays (startDay endDay : ℤ) : ℕ :=
  if startDay ≤ endDay then (endDay - startDay + 1).toNat else 0

/-- Embedding of the generation phase of `generateDataForTwoMonths`
(src/Dummy.js lines 62–90): `startDay` stands for `twoMonthsAgo` and
`endDay` for `today`; `clock` is the captured wall-clock time-of-day, which
the loop's `setDate` stepping never changes. -/
def generateDataForTwoMonths (energyType : ℤ) (r0 : ℚ) (rnd : ℕ → RandomDraws)
    (startDay endDay : ℤ) (clock : ClockTime) : List PzemRecord :=
  genLoop (formatTime clock) (energyStep energyType) (numDays startDay endDay)
    rnd startDay (initialEnergy energyType r0)

/-- A storage operation attempted against MongoDB in src/Dummy.js
lines 92–125, `disconnect` being the `finally` release. -/
inductive Attempt where
  | connect
  | listCols
  | insertOp
  | findOp
  | deleteOp
  | disconnect
deriving DecidableEq

/-- The failure a storage call can raise. -/
inductive StorErr where
  | connectFail
  | listFail
  | insertFail
  | findFail
  | deleteFail
deriving DecidableEq

/-- Abstract behaviour of the storage collaborator for one run: whether
each call succeeds, and how many records currently exist. -/
structure Storage where
  connectOk : Bool
  listOk : Bool
  insertWorks : Bool
  findWorks : Bool
  deleteWorks : Bool
  numRecords : ℕ
deriving DecidableEq

/-- Outcome of the `try` block (src/Dummy.js lines 92–119): ordered trace
of attempted storage calls, the exception if one was raised, counts
reported by insert/delete, and which of the two messages was printed. -/
structure TryOut where
  ops : List Attempt
  err : Option StorErr
  insertedCount : ℕ
  deletedCount : ℕ
  invalidMsg : Bool
  noRecordsMsg : Bool
deriving DecidableEq

/-- Embedding of the `try` block: connect, list collections, prompt for the
action, then dispatch — insert for 1, find-then-delete for 2 (skipping the
delete when nothing was found), and only an error message otherwise.  An
exception aborts the rest of the block. -/
def tryPart (st : Storage) (action : ℤ) (nData : ℕ) : TryOut :=
  if st.connectOk = false then
    ⟨[.connect], some .connectFail, 0, 0, false, false⟩
  else if st.listOk = false then
    ⟨[.connect, .listCols], some .listFail, 0, 0, false, false⟩
  else if action = 1 then
    if st.insertWorks then
      ⟨[.connect, .listCols, .insertOp], none, nData, 0, false, false⟩
    else
      ⟨[.connect, .listCols, .insertOp], some .insertFail, 0, 0, false, false⟩
  else if action = 2 then
    if st.findWorks = false then
      ⟨[.connect, .listCols, .findOp], some .findFail, 0, 0, false, false⟩
    else if 0 < st.numRecords then
      if st.deleteWorks then
        ⟨[.connect, .listCols, .findOp, .deleteOp], none, 0, st.numRecords,
          false, false⟩
      else
        ⟨[.connect, .listCols, .findOp, .deleteOp], some .deleteFail, 0, 0,
          false, false⟩
    else
      ⟨[.connect, .listCols, .findOp], none, 0, 0, false, true⟩
  else
    ⟨[.connect, .listCols], none, 0, 0, true, false⟩

/-- Result of the whole storage section including catch and finally. -/
structure RunOut where
  ops : List Attempt
  loggedError : Bool
  insertedCount : ℕ
  deletedCount : ℕ
  invalidMsg : Bool
  noRecordsMsg : Bool
deriving DecidableEq

/-- Embedding of try–catch–finally (src/Dummy.js lines 92–125): the catch
logs any raised error, and the finally always appends the disconnect. -/
def runStorage (st : Storage) (action : ℤ) (nData : ℕ) : RunOut :=
  let t := tryPart st action nData
  ⟨t.ops ++ [.disconnect], t.err.isSome, t.insertedCount, t.deletedCount,
    t.invalidMsg, t.noRecordsMsg⟩

/-- All-zero random draws, used for concrete evaluations. -/
def rz : RandomDraws := ⟨0, 0, 0, 0⟩

/-- Midnight, used for concrete evaluations. -/
def cz : ClockTime := ⟨0, 0, 0⟩

lemma genLoop_length (time : String) (step : ℚ) :
    ∀ (n : ℕ) (rnd : ℕ → RandomDraws) (d : ℤ) (e : ℚ),
      (genLoop time step n rnd d e).length = n := by
  intro n
  induction n with
  | zero => intro rnd d e; simp [genLoop]
  | succ m ih => intro rnd d e; simp [genLoop, ih]

lemma genLoop_map_date (time : String) (step : ℚ) :
    ∀ (n : ℕ) (rnd : ℕ → RandomDraws) (d : ℤ) (e : ℚ),
      (genLoop time step n rnd d e).map (fun r => r.date) =
        (List.range n).map (fun i : ℕ => d + (i : ℤ)) := by
  intro n
  induction n with
  | zero => intro rnd d e; simp [genLoop]
  | succ m ih =>
    intro rnd d e
    rw [List.range_succ_eq_map]
    simp only [genLoop, List.map_cons, List.map_map, stampRecord]
    congr 1
    · simp
    · rw [ih]
      apply List.map_congr_left
      intro i _
      simp only [Function.comp]
      push_cast
      ring

lemma genLoop_map_time (time : String) (step : ℚ) :
    ∀ (n : ℕ) (rnd : ℕ → RandomDraws) (d : ℤ) (e : ℚ),
      (genLoop time step n rnd d e).map (fun r => r.time) =
        List.replicate n time := by
  intro n
  induction n with
  | zero => intro rnd d e; simp [genLoop]
  | succ m ih =>
    intro rnd d e
    simp [genLoop, stampRecord, List.replicate_succ, ih]

lemma genLoop_map_energy (time : String) (step : ℚ) (hs : exactAt 3 step) :
    ∀ (n : ℕ) (rnd : ℕ → RandomDraws) (d : ℤ) (e : ℚ), exactAt 3 e →
      (genLoop time step n rnd d e).map (fun r => r.energy) =
        (List.range n).map (fun i : ℕ => e + (i : ℚ) * step) := by
  intro n
  induction n with
  | zero => intro rnd d e _; simp [genLoop]
  | succ m ih =>
    intro rnd d e he
    rw [List.range_succ_eq_map]
    simp only [genLoop, List.map_cons, List.map_map, stampRecord,
      generateRandomData]
    congr 1
    · simp [roundTo_eq_self he]
    · rw [roundTo_eq_self (exactAt_add he hs), ih _ _ _ (exactAt_add he hs)]
      apply List.map_congr_left
      intro i _
      simp only [Function.comp]
      push_cast
      ring

lemma genLoop_energy_rounded (time : String) (step : ℚ) :
    ∀ (n : ℕ) (rnd : ℕ → RandomDraws) (d : ℤ) (e : ℚ),
      (genLoop time step n rnd d e).map (fun r => roundTo 3 r.energy) =
        (genLoop time step n rnd d e).map (fun r => r.energy) := by
  intro n
  induction n with
  | zero => intro rnd d e; simp [genLoop]
  | succ m ih =>
    intro rnd d e
    simp only [genLoop, List.map_cons, stampRecord, generateRandomData]
    congr 1
    · exact roundTo_eq_self (exactAt_roundTo 3 e)
    · exact ih _ _ _

lemma chain_arith_step (e step : ℚ) (h0 : 0 ≤ step) (n : ℕ) :
    List.Chain' (fun a b => a ≤ b ∧ b = a + step)
      ((List.range n).map (fun i : ℕ => e + (i : ℚ) * step)) := by
  rw [List.chain'_map]
  cases n with
  | zero => simp
  | succ m =>
    rw [List.chain'_range_succ]
    intro k _
    constructor
    · push_cast; nlinarith
    · push_cast; ring

lemma chain_date_lt (d : ℤ) (n : ℕ) :
    List.Chain' (fun a b => a < b)
      ((List.range n).map (fun i : ℕ => d + (i : ℤ))) := by
  rw [List.chain'_map]
  cases n with
  | zero => simp
  | succ m =>
    rw [List.chain'_range_succ]
    intro k _
    omega

lemma exactAt_energyStep (mode : ℤ) : exactAt 3 (energyStep mode) := by
  unfold energyStep
  split
  · exact ⟨3, by norm_num⟩
  · exact ⟨500, by norm_num⟩

lemma energyStep_nonneg (mode : ℤ) : 0 ≤ energyStep mode := by
  unfold energyStep
  split <;> norm_num

lemma exactAt_initialEnergy (mode : ℤ) (r0 : ℚ) : exactAt 3 (initialEnergy mode r0) := by
  unfold initialEnergy
  split <;> exact exactAt_roundTo 3 _

/-- Projection of the voltage field of `generateRandomData`. -/
lemma generateRandomData_voltage (r : RandomDraws) (energy : ℚ) :
    (generateRandomData r energy).voltage =
      roundTo 1 (r.rVoltage * (245 - 225) + 225) := rfl

/-- Projection of the current field of `generateRandomData`. -/
lemma generateRandomData_current (r : RandomDraws) (energy : ℚ) :
    (generateRandomData r energy).current =
      roundTo 3 (r.rCurrent * (1 - 1 / 100) + 1 / 100) := rfl

/-- Projection of the power-factor field of `generateRandomData`. -/
lemma generateRandomData_pf (r : RandomDraws) (energy : ℚ) :
    (generateRandomData r energy).pf = roundTo 2 (r.rPf * (1 / 10) + 8 / 10) := rfl

/-- Projection of the frequency field of `generateRandomData`. -/
lemma generateRandomData_frequency (r : RandomDraws) (energy : ℚ) :
    (generateRandomData r energy).frequency =
      roundTo 1 (r.rFrequency * (1 / 10) + 498 / 10) := rfl

/-- Storage oracle with everything succeeding and no stored records, used
for concrete evaluations. -/
def stOk : Storage := ⟨true, true, true, true, true, 0⟩

lemma tryPart_count_insertOp (st : Storage) (action : ℤ) (nData : ℕ) :
    (tryPart st action nData).ops.count Attempt.insertOp ≤ 1 := by
  unfold tryPart
  repeat' split
  all_goals simp [List.count_cons]

lemma tryPart_count_deleteOp (st : Storage) (action : ℤ) (nData : ℕ) :
    (tryPart st action nData).ops.count Attempt.deleteOp ≤ 1 := by
  unfold tryPart
  repeat' split
  all_goals simp [List.count_cons]

/-- Claim C2: for a valid range, the generated run has exactly one record
per calendar day over the inclusive range, in strictly ascending date
order with no gaps or duplicates — `endDay - startDay + 1` records in all,
including one dated `endDay` (today) itself. -/
theorem spec_c2_one_record_per_day (mode : ℤ) (r0 : ℚ) (rnd : ℕ → RandomDraws)
    (s e : ℤ) (clock : ClockTime) (h : s ≤ e) :
    (generateDataForTwoMonths mode r0 rnd s e clock).length = (e - s + 1).toNat ∧
    (generateDataForTwoMonths mode r0 rnd s e clock).map (fun r => r.date) =
      (List.range (e - s + 1).toNat).map (fun i : ℕ => s + (i : ℤ)) ∧
    List.Chain' (fun a b => a < b)
      ((generateDataForTwoMonths mode r0 rnd s e clock).map (fun r => r.date)) ∧
    e ∈ (generateDataForTwoMonths mode r0 rnd s e clock).map (fun r => r.date) := by
  have hn : numDays s e = (e - s + 1).toNat := by
    unfold numDays
    rw [if_pos h]
  unfold generateDataForTwoMonths
  rw [hn]
  refine ⟨genLoop_length _ _ _ _ _ _, genLoop_map_date _ _ _ _ _ _, ?_, ?_⟩
  · rw [genLoop_map_date]
    exact chain_date_lt s _
  · rw [genLoop_map_date, List.mem_map]
    refine ⟨(e - s).toNat, ?_, ?_⟩
    · rw [List.mem_range]
      omega
    · omega

/-- Witness for C2 at the concrete range 0..2. -/
theorem spec_c2_witness :
    (0 : ℤ) ≤ 2 ∧
    ((generateDataForTwoMonths 1 0 (fun _ => rz) 0 2 cz).length =
        ((2 : ℤ) - 0 + 1).toNat ∧
      (generateDataForTwoMonths 1 0 (fun _ => rz) 0 2 cz).map (fun r => r.date) =
        (List.range ((2 : ℤ) - 0 + 1).toNat).map (fun i : ℕ => 0 + (i : ℤ)) ∧
      List.Chain' (fun a b => a < b)
        ((generateDataForTwoMonths 1 0 (fun _ => rz) 0 2 cz).map (fun r => r.date)) ∧
      (2 : ℤ) ∈ (generateDataForTwoMonths 1 0 (fun _ => rz) 0 2 cz).map
        (fun r => r.date)) :=
  ⟨by decide, spec_c2_one_record_per_day 1 0 (fun _ => rz) 0 2 cz (by decide)⟩

/-- Claim C3: along the generated sequence the energy is non-decreasing,
every consecutive difference is exactly the mode step (0.003 for mode 1,
0.5 otherwise), and every stored energy is a fixed point of rounding to 3
decimals. -/
theorem spec_c3_energy_steps (mode : ℤ) (r0 : ℚ) (rnd : ℕ → RandomDraws)
    (s e : ℤ) (clock : ClockTime) :
    List.Chain' (fun a b => a ≤ b ∧ b = a + energyStep mode)
      ((generateDataForTwoMonths mode r0 rnd s e clock).map (fun r => r.energy)) ∧
    (generateDataForTwoMonths mode r0 rnd s e clock).map
        (fun r => roundTo 3 r.energy) =
      (generateDataForTwoMonths mode r0 rnd s e clock).map (fun r => r.energy) := by
  unfold generateDataForTwoMonths
  constructor
  · rw [genLoop_map_energy _ _ (exactAt_energyStep mode) _ _ _ _
      (exactAt_initialEnergy mode r0)]
    exact chain_arith_step _ _ (energyStep_nonneg mode) _
  · exact genLoop_energy_rounded _ _ _ _ _ _

/-- Claim C4: with each random draw in `[0, 1)`, the sampled fields lie in
their closed ranges: voltage in [225, 245], current in [0.01, 1],
power factor in [0.8, 0.9], frequency in [49.8, 49.9]. -/
theorem spec_c4_field_ranges (r : RandomDraws) (energy : ℚ)
    (hv0 : 0 ≤ r.rVoltage) (hv1 : r.rVoltage < 1)
    (hp0 : 0 ≤ r.rPf) (hp1 : r.rPf < 1)
    (hc0 : 0 ≤ r.rCurrent) (hc1 : r.rCurrent < 1)
    (hf0 : 0 ≤ r.rFrequency) (hf1 : r.rFrequency < 1) :
    225 ≤ (generateRandomData r energy).voltage ∧
    (generateRandomData r energy).voltage ≤ 245 ∧
    1 / 100 ≤ (generateRandomData r energy).current ∧
    (generateRandomData r energy).current ≤ 1 ∧
    8 / 10 ≤ (generateRandomData r energy).pf ∧
    (generateRandomData r energy).pf ≤ 9 / 10 ∧
    498 / 10 ≤ (generateRandomData r energy).frequency ∧
    (generateRandomData r energy).frequency ≤ 499 / 10 := by
  rw [generateRandomData_voltage, generateRandomData_current,
    generateRandomData_pf, generateRandomData_frequency]
  refine ⟨?_, ?_, ?_, ?_, ?_, ?_, ?_, ?_⟩
  · exact le_roundTo ⟨2250, by norm_num⟩ (by nlinarith)
  · exact roundTo_le ⟨2450, by norm_num⟩ (by nlinarith)
  · exact le_roundTo ⟨10, by norm_num⟩ (by nlinarith)
  · exact roundTo_le ⟨1000, by norm_num⟩ (by nlinarith)
  · exact le_roundTo ⟨80, by norm_num⟩ (by nlinarith)
  · exact roundTo_le ⟨90, by norm_num⟩ (by nlinarith)
  · exact le_roundTo ⟨498, by norm_num⟩ (by nlinarith)
  · exact roundTo_le ⟨499, by norm_num⟩ (by nlinarith)

/-- Witness for C4 at the all-zero draws. -/
theorem spec_c4_witness :
    (0 ≤ rz.rVoltage ∧ rz.rVoltage < 1 ∧ 0 ≤ rz.rPf ∧ rz.rPf < 1 ∧
      0 ≤ rz.rCurrent ∧ rz.rCurrent < 1 ∧ 0 ≤ rz.rFrequency ∧ rz.rFrequency < 1) ∧
    (225 ≤ (generateRandomData rz 0).voltage ∧
      (generateRandomData rz 0).voltage ≤ 245 ∧
      1 / 100 ≤ (generateRandomData rz 0).current ∧
      (generateRandomData rz 0).current ≤ 1 ∧
      8 / 10 ≤ (generateRandomData rz 0).pf ∧
      (generateRandomData rz 0).pf ≤ 9 / 10 ∧
      498 / 10 ≤ (generateRandomData rz 0).frequency ∧
      (generateRandomData rz 0).frequency ≤ 499 / 10) :=
  ⟨by decide, spec_c4_field_ranges rz 0 (by decide) (by decide) (by decide)
    (by decide) (by decide) (by decide) (by decide) (by decide)⟩

/-- Claim C5: the power field equals the product of the record's own
(already rounded) voltage, current and power-factor fields, rounded to 2
decimals. -/
theorem spec_c5_power_product (r : RandomDraws) (energy : ℚ) :
    (generateRandomData r energy).power =
      roundTo 2 ((generateRandomData r energy).voltage *
        (generateRandomData r energy).current * (generateRandomData r energy).pf) :=
  rfl

/-- Claim C6: with the initial draw in `[0, 1)`, mode 1 starts in
[0.5, 1] and mode 2 starts in [150, 250], each a fixed point of rounding
to 3 decimals, and the first emitted record carries exactly that initial
energy. -/
theorem spec_c6_initial_energy (r0 : ℚ) (mode : ℤ) (rnd : ℕ → RandomDraws)
    (s e : ℤ) (clock : ClockTime)
    (h0 : 0 ≤ r0) (h1 : r0 < 1) (hse : s ≤ e) :
    (1 / 2 ≤ initialEnergy 1 r0 ∧ initialEnergy 1 r0 ≤ 1 ∧
      roundTo 3 (initialEnergy 1 r0) = initialEnergy 1 r0) ∧
    (150 ≤ initialEnergy 2 r0 ∧ initialEnergy 2 r0 ≤ 250 ∧
      roundTo 3 (initialEnergy 2 r0) = initialEnergy 2 r0) ∧
    (generateDataForTwoMonths mode r0 rnd s e clock).head?.map (fun r => r.energy) =
      some (initialEnergy mode r0) := by
  have e1 : initialEnergy 1 r0 = roundTo 3 (r0 * (1 - 1 / 2) + 1 / 2) := by
    unfold initialEnergy
    norm_num
  have e2 : initialEnergy 2 r0 = roundTo 3 (r0 * (250 - 150) + 150) := by
    unfold initialEnergy
    norm_num
  refine ⟨⟨?_, ?_, ?_⟩, ⟨?_, ?_, ?_⟩, ?_⟩
  · rw [e1]
    exact le_roundTo ⟨500, by norm_num⟩ (by nlinarith)
  · rw [e1]
    exact roundTo_le ⟨1000, by norm_num⟩ (by nlinarith)
  · rw [e1]
    exact roundTo_eq_self (exactAt_roundTo 3 _)
  · rw [e2]
    exact le_roundTo ⟨150000, by norm_num⟩ (by nlinarith)
  · rw [e2]
    exact roundTo_le ⟨250000, by norm_num⟩ (by nlinarith)
  · rw [e2]
    exact roundTo_eq_self (exactAt_roundTo 3 _)
  · obtain ⟨m, hm⟩ : ∃ m, numDays s e = m + 1 := by
      refine ⟨(e - s).toNat, ?_⟩
      unfold numDays
      rw [if_pos hse]
      omega
    unfold generateDataForTwoMonths
    rw [hm]
    simp only [genLoop, stampRecord, generateRandomData, List.head?_cons,
      Option.map_some']
    rw [roundTo_eq_self (exactAt_initialEnergy mode r0)]

/-- Witness for C6 at draw 0, mode 1, range 0..1. -/
theorem spec_c6_witness :
    ((0 : ℚ) ≤ 0 ∧ (0 : ℚ) < 1 ∧ (0 : ℤ) ≤ 1) ∧
    ((1 / 2 ≤ initialEnergy 1 0 ∧ initialEnergy 1 0 ≤ 1 ∧
        roundTo 3 (initialEnergy 1 0) = initialEnergy 1 0) ∧
      (150 ≤ initialEnergy 2 0 ∧ initialEnergy 2 0 ≤ 250 ∧
        roundTo 3 (initialEnergy 2 0) = initialEnergy 2 0) ∧
      (generateDataForTwoMonths 1 0 (fun _ => rz) 0 1 cz).head?.map
          (fun r => r.energy) =
        some (initialEnergy 1 0)) :=
  ⟨by decide, spec_c6_initial_energy 0 1 (fun _ => rz) 0 1 cz (by decide)
    (by decide) (by decide)⟩

/-- Claim C7: with storage reachable, an action outside {1, 2} only prints
the invalid-action message: no insert and no delete is ever attempted, no
error is logged, and the run still disconnects and ends normally. -/
theorem spec_c7_invalid_action (st : Storage) (action : ℤ) (nData : ℕ)
    (hc : st.connectOk = true) (hl : st.listOk = true)
    (h1 : action ≠ 1) (h2 : action ≠ 2) :
    (runStorage st action nData).invalidMsg = true ∧
    (runStorage st action nData).loggedError = false ∧
    Attempt.insertOp ∉ (runStorage st action nData).ops ∧
    Attempt.deleteOp ∉ (runStorage st action nData).ops ∧
    (runStorage st action nData).ops.getLast? = some Attempt.disconnect := by
  simp [runStorage, tryPart, hc, hl, h1, h2]

/-- Witness for C7 at action 3 against a fully working storage. -/
theorem spec_c7_witness :
    (stOk.connectOk = true ∧ stOk.listOk = true ∧ (3 : ℤ) ≠ 1 ∧ (3 : ℤ) ≠ 2) ∧
    ((runStorage stOk 3 5).invalidMsg = true ∧
      (runStorage stOk 3 5).loggedError = false ∧
      Attempt.insertOp ∉ (runStorage stOk 3 5).ops ∧
      Attempt.deleteOp ∉ (runStorage stOk 3 5).ops ∧
      (runStorage stOk 3 5).ops.getLast? = some Attempt.disconnect) :=
  ⟨by decide, spec_c7_invalid_action stOk 3 5 (by decide) (by decide)
    (by decide) (by decide)⟩

/-- Claim C8: choosing delete when zero records exist is a no-op: the find
returns nothing, no delete call is issued, zero records are deleted, no
error is raised, and the run disconnects normally. -/
theorem spec_c8_delete_empty (st : Storage) (nData : ℕ)
    (hc : st.connectOk = true) (hl : st.listOk = true)
    (hf : st.findWorks = true) (hn : st.numRecords = 0) :
    (runStorage st 2 nData).loggedError = false ∧
    (runStorage st 2 nData).deletedCount = 0 ∧
    Attempt.deleteOp ∉ (runStorage st 2 nData).ops ∧
    (runStorage st 2 nData).noRecordsMsg = true ∧
    (runStorage st 2 nData).ops.getLast? = some Attempt.disconnect := by
  norm_num [runStorage, tryPart, hc, hl, hf, hn]
  decide

/-- Witness for C8 against a fully working storage holding no records. -/
theorem spec_c8_witness :
    (stOk.connectOk = true ∧ stOk.listOk = true ∧ stOk.findWorks = true ∧
      stOk.numRecords = 0) ∧
    ((runStorage stOk 2 5).loggedError = false ∧
      (runStorage stOk 2 5).deletedCount = 0 ∧
      Attempt.deleteOp ∉ (runStorage stOk 2 5).ops ∧
      (runStorage stOk 2 5).noRecordsMsg = true ∧
      (runStorage stOk 2 5).ops.getLast? = some Attempt.disconnect) :=
  ⟨by decide, spec_c8_delete_empty stOk 5 (by decide) (by decide) (by decide)
    (by decide)⟩

/-- Claim C9: whatever the storage does, at most one insert and at most one
delete are attempted (no retries), the disconnect is always the final
storage call on success and failure alike, and an error is logged exactly
when the try block raised one. -/
theorem spec_c9_caught_released_no_retry (st : Storage) (action : ℤ) (nData : ℕ) :
    (runStorage st action nData).ops.count Attempt.insertOp ≤ 1 ∧
    (runStorage st action nData).ops.count Attempt.deleteOp ≤ 1 ∧
    (runStorage st action nData).ops.getLast? = some Attempt.disconnect ∧
    (runStorage st action nData).loggedError = (tryPart st action nData).err.isSome := by
  have hops : (runStorage st action nData).ops =
      (tryPart st action nData).ops ++ [Attempt.disconnect] := rfl
  refine ⟨?_, ?_, ?_, rfl⟩
  · rw [hops, List.count_append]
    have h1 := tryPart_count_insertOp st action nData
    have h2 : ([Attempt.disconnect].count Attempt.insertOp) = 0 := by decide
    omega
  · rw [hops, List.count_append]
    have h1 := tryPart_count_deleteOp st action nData
    have h2 : ([Attempt.disconnect].count Attempt.deleteOp) = 0 := by decide
    omega
  · rw [hops, List.getLast?_append_cons]
    rfl

/-- Claim C10: every record of a run carries the identical time string —
the 12-hour rendering of the captured start clock, with the hour in 1..12
(hour 0 shown as 12), zero-padded minutes and seconds and an AM/PM
suffix — while the date fields are strictly increasing, so only the date
varies across the run's date/time stamps. -/
theorem spec_c10_constant_time_string (mode : ℤ) (r0 : ℚ) (rnd : ℕ → RandomDraws)
    (s e : ℤ) (t : ClockTime) :
    (generateDataForTwoMonths mode r0 rnd s e t).map (fun r => r.time) =
      List.replicate (generateDataForTwoMonths mode r0 rnd s e t).length
        (formatTime t) ∧
    List.Chain' (fun a b => a < b)
      ((generateDataForTwoMonths mode r0 rnd s e t).map (fun r => r.date)) ∧
    (∃ h12 : ℕ, 1 ≤ h12 ∧ h12 ≤ 12 ∧
      (t.hours % 12 = 0 → h12 = 12) ∧ (t.hours % 12 ≠ 0 → h12 = t.hours % 12) ∧
      formatTime t = toString h12 ++ ":" ++ pad2 t.minutes ++ ":" ++
        pad2 t.seconds ++ " " ++ (if 12 ≤ t.hours then "PM" else "AM")) := by
  refine ⟨?_, ?_, ?_⟩
  · unfold generateDataForTwoMonths
    rw [genLoop_map_time, genLoop_length]
  · unfold generateDataForTwoMonths
    rw [genLoop_map_date]
    exact chain_date_lt _ _
  · refine ⟨if t.hours % 12 = 0 then 12 else t.hours % 12, ?_, ?_, ?_, ?_, ?_⟩
    · split
      · norm_num
      · omega
    · split
      · norm_num
      · have := Nat.mod_lt t.hours (show 0 < 12 by norm_num)
        omega
    · intro h
      rw [if_pos h]
    · intro h
      rw [if_neg h]
    · unfold formatTime
      rfl

/-- Claim C1 counterexample: at mode 3 the generation does not abort — it
produces the full run, identical to the mode 2 (Greater) run, with the
Greater initial energy and step. -/
theorem spec_c1_counterexample :
    generateDataForTwoMonths 3 0 (fun _ => rz) 0 1 cz =
      generateDataForTwoMonths 2 0 (fun _ => rz) 0 1 cz ∧
    (generateDataForTwoMonths 3 0 (fun _ => rz) 0 1 cz).length = 2 ∧
    initialEnergy 3 0 = 150 ∧ energyStep 3 = 1 / 2 := by
  have hie : initialEnergy 3 0 = initialEnergy 2 0 := by
    unfold initialEnergy
    norm_num
  have hst : energyStep 3 = energyStep 2 := by
    unfold energyStep
    norm_num
  refine ⟨?_, ?_, ?_, ?_⟩
  · unfold generateDataForTwoMonths
    rw [hie, hst]
  · unfold generateDataForTwoMonths numDays
    rw [if_pos (by norm_num : (0 : ℤ) ≤ 1), genLoop_length]
    decide
  · unfold initialEnergy
    rw [if_neg (by norm_num : ¬ (3 : ℤ) = 1)]
    rw [show ((0 : ℚ) * (250 - 150) + 150) = 150 by norm_num]
    exact roundTo_eq_self ⟨150000, by norm_num⟩
  · unfold energyStep
    rw [if_neg (by norm_num : ¬ (3 : ℤ) = 1)]

/-- Claim C1 amended: the mode input is never validated — any mode other
than 1 (3 included) is silently treated as the Greater mode, producing
exactly the mode 2 run, and generation still emits all records rather than
aborting. -/
theorem spec_c1_amended_silent_default (mode : ℤ) (r0 : ℚ)
    (rnd : ℕ → RandomDraws) (s e : ℤ) (clock : ClockTime) (h : mode ≠ 1) :
    generateDataForTwoMonths mode r0 rnd s e clock =
      generateDataForTwoMonths 2 r0 rnd s e clock ∧
    (s ≤ e → (generateDataForTwoMonths mode r0 rnd s e clock).length =
      (e - s + 1).toNat) := by
  have hie : initialEnergy mode r0 = initialEnergy 2 r0 := by
    unfold initialEnergy
    rw [if_neg h, if_neg (by norm_num : ¬ (2 : ℤ) = 1)]
  have hst : energyStep mode = energyStep 2 := by
    unfold energyStep
    rw [if_neg h, if_neg (by norm_num : ¬ (2 : ℤ) = 1)]
  constructor
  · unfold generateDataForTwoMonths
    rw [hie, hst]
  · intro hse
    unfold generateDataForTwoMonths numDays
    rw [if_pos hse, genLoop_length]

/-- Witness for the amended C1 at mode 3 over the range 0..1. -/
theorem spec_c1_amended_witness :
    (3 : ℤ) ≠ 1 ∧
    (generateDataForTwoMonths 3 0 (fun _ => rz) 0 1 cz =
        generateDataForTwoMonths 2 0 (fun _ => rz) 0 1 cz ∧
      ((0 : ℤ) ≤ 1 → (generateDataForTwoMonths 3 0 (fun _ => rz) 0 1 cz).length =
        ((1 : ℤ) - 0 + 1).toNat)) :=
  ⟨by decide, spec_c1_amended_silent_default 3 0 (fun _ => rz) 0 1 cz (by decide)⟩
